import Mathlib

/-!
Verification development for the smsgate SMS-parsing pipeline.

Shallow embedding of the code under `src/`:
* `libs/decimal_utils.py`   — `parse_ambiguous_decimal`
* `libs/gemini_parser.py`   — masking, datetime repair, `parse_sms_llm`
* `libs/models.py`          — `RawSMS`, `ParsedSMS`, `TxnType`
* `libs/llm_core.py`        — `ParsedSmsCore`
* `services/parser_worker/worker.py` — `_process_one`
* `services/pb_writer/writer.py`     — `_process_one`
* `services/pb_writer/upsert.py`     — SQL `upsert_parsed_sms`
* `services/pb_writer/pocketbase.py` — PocketBase upsert

Machine integers do not occur; Python `Decimal` values are modelled by `ℚ`
(Python `Decimal` comparison is numeric, which `ℚ` equality captures), and
Python `datetime` by an explicit record compared lexicographically.
Strings are processed through `String.toList`, so every definition is
executable and concrete runs evaluate by `decide`.
-/

/-- Naive Python `datetime` value (no timezone), compared lexicographically. -/
structure PyDateTime where
  year : Nat
  month : Nat
  day : Nat
  hour : Nat
  minute : Nat
  second : Nat
deriving DecidableEq, Repr

/-- Python `datetime` `<` comparison (lexicographic on the six fields). -/
def PyDateTime.ltB (a b : PyDateTime) : Bool :=
  if a.year ≠ b.year then a.year < b.year
  else if a.month ≠ b.month then a.month < b.month
  else if a.day ≠ b.day then a.day < b.day
  else if a.hour ≠ b.hour then a.hour < b.hour
  else if a.minute ≠ b.minute then a.minute < b.minute
  else a.second < b.second

/-- year/month/day triple as found embedded in a message body. -/
structure PyDate where
  year : Nat
  month : Nat
  day : Nat
deriving DecidableEq, Repr

/-- `datetime.combine(d.date(), cur.time())`: the date of `d` with the
time-of-day of `cur`. -/
def combineDate (d : PyDate) (cur : PyDateTime) : PyDateTime :=
  ⟨d.year, d.month, d.day, cur.hour, cur.minute, cur.second⟩

/-- Gregorian leap year. -/
def isLeap (y : Nat) : Bool :=
  y % 4 = 0 && (y % 100 ≠ 0 || y % 400 = 0)

/-- Days in a month, as validated by Python `datetime`. -/
def daysInMonth (y m : Nat) : Nat :=
  if m = 2 then (if isLeap y then 29 else 28)
  else if m = 4 || m = 6 || m = 9 || m = 11 then 30
  else 31

/-- A (year, month, day) triple Python `datetime` accepts. -/
def validDate (y m d : Nat) : Bool :=
  1 ≤ y && y ≤ 9999 && 1 ≤ m && m ≤ 12 && 1 ≤ d && d ≤ daysInMonth y m

/-- Python `strptime` two-digit-year rule: 00–68 ↦ 2000s, 69–99 ↦ 1900s. -/
def expandY2 (yy : Nat) : Nat :=
  if yy ≤ 68 then 2000 + yy else 1900 + yy

/- ───────────────────────── char-list helpers ───────────────────────── -/

/-- Decimal digits of a char list read as a natural number. -/
def digitsToNat (l : List Char) : Nat :=
  l.foldl (fun a c => a * 10 + (c.toNat - 48)) 0

/-- Value of a two-digit pair. -/
def twoDigits (a b : Char) : Nat :=
  (a.toNat - 48) * 10 + (b.toNat - 48)

/-- needle is a prefix of hay. -/
def hasPref : List Char → List Char → Bool
  | [], _ => true
  | _ :: _, [] => false
  | a :: as, b :: bs => a = b && hasPref as bs

/-- needle occurs as a contiguous substring of hay (Python `in`). -/
def hasSub (needle : List Char) : List Char → Bool
  | [] => needle.isEmpty
  | hay@(_ :: t) => hasPref needle hay || hasSub needle t

/-- Python `needle in hay` on strings. -/
def strContains (hay needle : String) : Bool :=
  hasSub needle.toList hay.toList

/-- Python `str.upper()` (the marker substrings searched are ASCII). -/
def pyUpper (s : String) : String :=
  ⟨s.toList.map Char.toUpper⟩

/-- Characters stripped by Python `str.strip()` (the whitespace that occurs
in amount strings). -/
def isStripWs (c : Char) : Bool :=
  c = ' ' || c = '\t' || c = '\n' || c = '\x0d' || c = '\x0b' || c = '\x0c'

/-- Index of the last occurrence of `c` (Python `str.rfind`), if any. -/
def rfindPos (c : Char) (l : List Char) : Option Nat :=
  (l.reverse.findIdx? (· = c)).map (fun i => l.length - 1 - i)

/- ─────────────────── libs/decimal_utils.py ─────────────────── -/

/-- Keep only the dot at index `k`, dropping all other dots
(`"".join(parts[:-1]) + "." + parts[-1]` for a multi-dot string). -/
def keepOnlyDotAt (l : List Char) (k : Nat) : List Char :=
  (l.enum.filterMap (fun p =>
    if p.2 = '.' && p.1 ≠ k then none else some p.2))

/-- Magnitude of a Python `Decimal` literal as a numerator/denominator pair:
digits with at most one dot, at least one digit, no sign.  (`ℚ` values are
built with `mkRat` throughout, because core `Rat` arithmetic does not reduce
inside the kernel.) -/
def decimalMagnitude (l : List Char) : Option (Nat × Nat) :=
  if l.contains '-' then none
  else if (l.count '.') > 1 then none
  else
    let intPart := l.takeWhile (· ≠ '.')
    let fracPart := (l.dropWhile (· ≠ '.')).drop 1
    if intPart.all Char.isDigit && fracPart.all Char.isDigit
        && (intPart ≠ [] || fracPart ≠ []) then
      some (digitsToNat intPart * 10 ^ fracPart.length + digitsToNat fracPart,
        10 ^ fracPart.length)
    else none

/-- Python `Decimal(s)` on the cleaned residue (optional leading minus,
then digits with at most one dot), as an exact rational. -/
def decimalOfChars : List Char → Option ℚ
  | '-' :: rest => (decimalMagnitude rest).map (fun p => mkRat (-(p.1 : Int)) p.2)
  | l => (decimalMagnitude l).map (fun p => mkRat p.1 p.2)

/-- `libs/decimal_utils.parse_ambiguous_decimal`: heuristic separator
disambiguation, then residue cleanup, then exact decimal parsing.
`none` models the raised `ValueError`. -/
def parse_ambiguous_decimal (s : String) : Option ℚ :=
  let cleaned := (((s.toList.dropWhile isStripWs).reverse.dropWhile
    isStripWs).reverse).filter (· ≠ ' ')
  if cleaned = [] then none
  else
    let lastDot := rfindPos '.' cleaned
    let lastComma := rfindPos ',' cleaned
    let afterHeuristic :=
      match lastDot, lastComma with
      | some dp, some cp =>
        if dp < cp then
          (cleaned.filter (· ≠ '.')).map (fun c => if c = ',' then '.' else c)
        else
          cleaned.filter (· ≠ ',')
      | none, some _ =>
        if (cleaned.count ',') > 1 then cleaned.filter (· ≠ ',')
        else cleaned.map (fun c => if c = ',' then '.' else c)
      | some dp, none =>
        if (cleaned.count '.') > 1 then keepOnlyDotAt cleaned dp
        else cleaned
      | none, none => cleaned
    decimalOfChars
      (afterHeuristic.filter (fun c => c.isDigit || c = '.' || c = '-'))

/- ─────────────── datetime parsing (gemini_parser.py) ─────────────── -/

/-- Greedy 1-or-2-digit field of Python `strptime` (the `\d{1,2}` regex
fragments; backtracking never helps here because every following literal
is a non-digit). -/
def takeDigits12 : List Char → Option (Nat × List Char)
  | a :: b :: rest =>
    if a.isDigit then
      if b.isDigit then some (twoDigits a b, rest)
      else some (a.toNat - 48, b :: rest)
    else none
  | [a] => if a.isDigit then some (a.toNat - 48, []) else none
  | [] => none

/-- Python `datetime.strptime(s, "%d.%m.%y %H:%M")` (`%y` is exactly two
digits; `%d`, `%m`, `%H`, `%M` are 1–2 digits; the whole string must be
consumed; the `datetime` constructor validates the calendar date). -/
def strptime_dmy_hm (s : String) : Option PyDateTime :=
  match takeDigits12 s.toList with
  | some (d, '.' :: r1) =>
    match takeDigits12 r1 with
    | some (m, '.' :: r2) =>
      match r2 with
      | y1 :: y2 :: ' ' :: r3 =>
        if y1.isDigit && y2.isDigit then
          let y := expandY2 (twoDigits y1 y2)
          match takeDigits12 r3 with
          | some (hh, ':' :: r4) =>
            match takeDigits12 r4 with
            | some (mm, []) =>
              if hh ≤ 23 && mm ≤ 59 && validDate y m d then
                some ⟨y, m, d, hh, mm, 0⟩
              else none
            | _ => none
          | _ => none
        else none
      | _ => none
    | _ => none
  | _ => none

/-- First match of the regex `\d{2}\.\d{2}\.\d{4}` at the head of the list,
read with format `%d.%m.%Y` (unvalidated). -/
def matchDate4 : List Char → Option PyDate
  | a :: b :: '.' :: c :: d :: '.' :: e :: f :: g :: h :: _ =>
    if a.isDigit && b.isDigit && c.isDigit && d.isDigit && e.isDigit
        && f.isDigit && g.isDigit && h.isDigit then
      some ⟨digitsToNat [e, f, g, h], twoDigits c d, twoDigits a b⟩
    else none
  | _ => none

/-- First match of the regex `\d{2}\.\d{2}\.\d{2}` at the head of the list,
read with format `%d.%m.%y` (unvalidated, two-digit year expanded). -/
def matchDate2 : List Char → Option PyDate
  | a :: b :: '.' :: c :: d :: '.' :: e :: f :: _ =>
    if a.isDigit && b.isDigit && c.isDigit && d.isDigit && e.isDigit
        && f.isDigit then
      some ⟨expandY2 (twoDigits e f), twoDigits c d, twoDigits a b⟩
    else none
  | _ => none

/-- `re.search` leftmost match for the `dd.mm.yyyy` pattern. -/
def scanDate4 : List Char → Option PyDate
  | [] => none
  | c :: t =>
    match matchDate4 (c :: t) with
    | some r => some r
    | none => scanDate4 t

/-- `re.search` leftmost match for the `dd.mm.yy` pattern. -/
def scanDate2 : List Char → Option PyDate
  | [] => none
  | c :: t =>
    match matchDate2 (c :: t) with
    | some r => some r
    | none => scanDate2 t

/-- The embedded date `fix_broken_datetime` extracts from a message body:
the first `dd.mm.yyyy` regex match if it is a valid date, else the first
`dd.mm.yy` regex match if valid, else nothing (an invalid first match of a
pattern makes the loop `continue` to the next pattern, never to a later
match of the same pattern). -/
def first_embedded_date (body : String) : Option PyDate :=
  let fb :=
    match scanDate2 body.toList with
    | some dte => if validDate dte.year dte.month dte.day then some dte else none
    | none => none
  match scanDate4 body.toList with
  | some dte => if validDate dte.year dte.month dte.day then some dte else fb
  | none => fb

/-- `libs/gemini_parser.fix_broken_datetime` on a `datetime` argument:
if the body embeds a valid `dd.mm.yy(yy)` date, replace the date component
and keep the time-of-day of `current_date`; otherwise return `current_date`
(the code returns `current_date` unchanged also when the embedded date
coincides with it, which equals `combineDate` in that case too). -/
def fix_broken_datetime (body : String) (cur : PyDateTime) : PyDateTime :=
  match first_embedded_date body with
  | some dte => combineDate dte cur
  | none => cur

/-- Outcome of `parse_custom_datetime`: a datetime, or an exception whose
message does / does not contain `String does not contain a date`
(`parse_sms_llm` dispatches on that substring). -/
inductive CustomDateResult
  | ok (d : PyDateTime)
  | noDate
  | otherFail
deriving DecidableEq, Repr

/-- Modelled from the library contract of `dateutil.parser.parse` (the code
calls an external library here): the slash form `M/D/YY H:MM` is parsed
month-first (dateutil's default), with the two-digit year mapped into
1950–2049; a string of only whitespace raises the
`String does not contain a date` error; every other shape is modelled as
the generic unrecognized-format failure.  Only the slash form is ever
relied upon by the theorems below. -/
def dateutil_fallback (s : String) : CustomDateResult :=
  if s.toList.all isStripWs then .noDate
  else
    match takeDigits12 s.toList with
    | some (m, '/' :: r1) =>
      match takeDigits12 r1 with
      | some (d, '/' :: r2) =>
        match r2 with
        | y1 :: y2 :: ' ' :: r3 =>
          if y1.isDigit && y2.isDigit then
            let yy := twoDigits y1 y2
            let y := if yy < 50 then 2000 + yy else 1900 + yy
            match takeDigits12 r3 with
            | some (hh, ':' :: r4) =>
              match takeDigits12 r4 with
              | some (mm, []) =>
                if hh ≤ 23 && mm ≤ 59 && validDate y m d then
                  .ok ⟨y, m, d, hh, mm, 0⟩
                else .otherFail
              | _ => .otherFail
            | _ => .otherFail
          else .otherFail
        | _ => .otherFail
      | _ => .otherFail
    | _ => .otherFail

/-- `libs/gemini_parser.parse_custom_datetime`: `strptime` with
`%d.%m.%y %H:%M` first, then the `dateutil` free-form fallback. -/
def parse_custom_datetime (s : String) : CustomDateResult :=
  match strptime_dmy_hm s with
  | some dte => .ok dte
  | none => dateutil_fallback s

/-- Python `int(s)` on a string (whitespace-stripped sign + digits;
numeric-literal underscores are not modelled). -/
def pyInt (s : String) : Option Int :=
  let l := ((s.toList.dropWhile isStripWs).reverse.dropWhile isStripWs).reverse
  match l with
  | '-' :: rest =>
    if rest ≠ [] && rest.all Char.isDigit then some (-(digitsToNat rest : Int))
    else none
  | '+' :: rest =>
    if rest ≠ [] && rest.all Char.isDigit then some (digitsToNat rest : Int)
    else none
  | rest =>
    if rest ≠ [] && rest.all Char.isDigit then some (digitsToNat rest : Int)
    else none

/-- Civil date from days since 1970-01-01 (proleptic Gregorian). -/
def civilFromDays (z0 : Nat) : Nat × Nat × Nat :=
  let z := z0 + 719468
  let era := z / 146097
  let doe := z % 146097
  let yoe := (doe - doe / 1460 + doe / 36524 - doe / 146096) / 365
  let y := yoe + era * 400
  let doy := doe - (365 * yoe + yoe / 4 - yoe / 100)
  let mp := (5 * doy + 2) / 153
  let d := doy - (153 * mp + 2) / 5 + 1
  let m := if mp < 10 then mp + 3 else mp - 9
  (if m ≤ 2 then y + 1 else y, m, d)

/-- `libs/gemini_parser.parse_unix_timestamp` with `tz="Asia/Yerevan"`,
`aware=False`: negative values and values ≥ 1e14 raise; values < 1e11 are
seconds, the rest milliseconds (divided by 1000; sub-second precision
dropped).  Asia/Yerevan is modelled as the fixed offset UTC+4 it has had
since 2012. -/
def parse_unix_timestamp (n : Int) : Option PyDateTime :=
  if n < 0 then none
  else
    let v := n.toNat
    let secsOpt : Option Nat :=
      if v < 10 ^ 11 then some v
      else if v < 10 ^ 14 then some (v / 1000) else none
    match secsOpt with
    | none => none
    | some secs =>
      let t := secs + 4 * 3600
      let c := civilFromDays (t / 86400)
      let rem := t % 86400
      some ⟨c.1, c.2.1, c.2.2, rem / 3600, rem % 3600 / 60, rem % 60⟩

/-- Modelled subset of pydantic v2 string-to-`datetime` coercion (ISO 8601
`YYYY-MM-DD`, optionally followed by `T` or a space and `HH:MM[:SS]`;
offsets and fractional seconds are not modelled — no theorem below depends
on this branch producing a value). -/
def pydantic_datetime_of_string (s : String) : Option PyDateTime :=
  match s.toList with
  | y1 :: y2 :: y3 :: y4 :: '-' :: m1 :: m2 :: '-' :: d1 :: d2 :: rest =>
    if y1.isDigit && y2.isDigit && y3.isDigit && y4.isDigit && m1.isDigit
        && m2.isDigit && d1.isDigit && d2.isDigit then
      let y := digitsToNat [y1, y2, y3, y4]
      let m := twoDigits m1 m2
      let d := twoDigits d1 d2
      if validDate y m d then
        match rest with
        | [] => some ⟨y, m, d, 0, 0, 0⟩
        | sep :: h1 :: h2 :: ':' :: i1 :: i2 :: rest2 =>
          if (sep = 'T' || sep = ' ') && h1.isDigit && h2.isDigit
              && i1.isDigit && i2.isDigit then
            let hh := twoDigits h1 h2
            let mi := twoDigits i1 i2
            if hh ≤ 23 && mi ≤ 59 then
              match rest2 with
              | [] => some ⟨y, m, d, hh, mi, 0⟩
              | ':' :: s1 :: s2 :: [] =>
                if s1.isDigit && s2.isDigit && twoDigits s1 s2 ≤ 59 then
                  some ⟨y, m, d, hh, mi, twoDigits s1 s2⟩
                else none
              | _ => none
            else none
          else none
        | _ => none
      else none
    else none
  | _ => none

/- ─────────────── data model (libs/models.py, libs/llm_core.py) ─────────────── -/

/-- `libs/models.TxnType`. -/
inductive TxnType
  | debit
  | credit
  | otp
  | unknown
deriving DecidableEq, Repr

/-- pydantic coercion of the oracle's `txn_type` string into `TxnType`. -/
def txnTypeOfString (s : String) : Option TxnType :=
  if s = "debit" then some .debit
  else if s = "credit" then some .credit
  else if s = "otp" then some .otp
  else if s = "unknown" then some .unknown
  else none

/-- `libs/models.RawSMS` (already schema-validated: the claims below all
start from a deserialized raw message). -/
structure RawSMS where
  msg_id : String
  sender : String
  body : String
  date : String
  device_id : Option String
deriving DecidableEq, Repr

/-- `libs/models.ParsedSMS`.  `Decimal` fields are exact rationals. -/
structure ParsedSMS where
  msg_id : String
  device_id : Option String
  sender : String
  date : PyDateTime
  raw_body : String
  txn_type : TxnType
  amount : Option ℚ
  currency : Option String
  card : Option String
  merchant : Option String
  city : Option String
  address : Option String
  balance : Option ℚ
  parser_version : String
deriving DecidableEq, Repr

/-- pydantic re-validation `ParsedSMS(**parsed.model_dump())` performed by
the worker: the only constraint not already enforced by the field types is
`card: min_length=4, max_length=4`. -/
def validateParsedSMS (p : ParsedSMS) : Bool :=
  match p.card with
  | none => true
  | some c => c.toList.length = 4

/-- The JSON object the oracle returns (`call_gemini`), all values strings;
`none` means the key is absent.  The enforced Gemini response schema types
every property as a string, so JSON nulls and non-string values do not
occur. -/
structure RespDict where
  txn_type : Option String
  date : Option String
  amount : Option String
  currency : Option String
  card : Option String
  merchant : Option String
  city : Option String
  address : Option String
  balance : Option String
deriving DecidableEq, Repr

/-- `libs/llm_core.ParsedSmsCore` after `model_validate` of the normalized
dict: `txn_type` and `date` coerced, `amount`/`balance` already exact
decimals, the remaining required-but-nullable fields present as strings. -/
structure ParsedSmsCore where
  txn_type : TxnType
  date : PyDateTime
  amount : ℚ
  currency : String
  card : String
  merchant : String
  city : String
  address : String
  balance : ℚ
deriving DecidableEq, Repr

/- ─────────────── body cleanup (gemini_parser.py) ─────────────── -/

/-- `raw.body.replace(NBSP, " ").replace(BULLET, "*")`. -/
def cleanBodyChars (l : List Char) : List Char :=
  l.map (fun c => if c = ' ' then ' ' else if c = '•' then '*' else c)

/-- `re.sub(r"\d{4}\*{3}(\d{4})", r"CARD:\1", text)`: leftmost
non-overlapping replacement of each 4-digit + 3-asterisk + 4-digit card
pattern by `CARD:` plus the trailing 4 digits. -/
def maskCardChars : List Char → List Char
  | a :: b :: c :: d :: '*' :: '*' :: '*' :: e :: f :: g :: h :: rest =>
    if a.isDigit && b.isDigit && c.isDigit && d.isDigit && e.isDigit
        && f.isDigit && g.isDigit && h.isDigit then
      'C' :: 'A' :: 'R' :: 'D' :: ':' :: e :: f :: g :: h :: maskCardChars rest
    else
      a :: maskCardChars (b :: c :: d :: '*' :: '*' :: '*' :: e :: f :: g :: h :: rest)
  | c :: t => c :: maskCardChars t
  | [] => []

/-- `libs/gemini_parser.mask_card_number_with_prefix` composed with the
NBSP/bullet cleanup of `parse_sms_llm`: the `fixed_body` the adapter hashes,
sends to the oracle, and stores in `raw_body`. -/
def fixedBodyOf (body : String) : String :=
  ⟨maskCardChars (cleanBodyChars body.toList)⟩

/- ─────────────── extraction adapter (gemini_parser.parse_sms_llm) ─────────────── -/

/-- Outcome of one `call_gemini` invocation: the oracle call raises (a
transport/API failure, or an answer containing no JSON object — both
re-raised to the caller of `call_gemini`), or returns the JSON dict. -/
inductive OracleResult
  | transportError
  | malformedAnswer
  | response (d : RespDict)
deriving DecidableEq, Repr

/-- What `parse_sms_llm` gives its caller: a `ParsedSMS`, the `None`
result, the explicit `BrokenMessage` exception, or some other exception
propagating out (oracle failure, or a `KeyError` raised from inside the
error handler itself). -/
inductive ParseResult
  | parsed (p : ParsedSMS)
  | noneResult
  | brokenMessage
  | raised
deriving DecidableEq, Repr

/-- The disk cache keyed by the content hash of the masked body. -/
abbrev Cache := String → Option RespDict

/-- The `otp_keywords` short-circuit at the top of `parse_sms_llm`
(case-sensitive `in` checks on the raw body). -/
def otp_keywords_check (body : String) : Bool :=
  strContains body "OTP" || strContains body "CODE:" ||
  strContains body "PASS:" || strContains body "PASS=" ||
  strContains body "Daily limit exceeded:"

/-- The `try:`-block of `parse_sms_llm` — datetime repair, card cleanup,
amount/balance parsing, `ParsedSmsCore.model_validate` — every failure in
it lands in the enclosing `except` handler (`none` here).  Mirrors the
source order: date, card, amount, balance, then validation. -/
def normalizeResp (raw : RawSMS) (d : RespDict) : Option ParsedSmsCore :=
  match d.date with
  | none => none
  | some s =>
    let step1 : Option (String ⊕ PyDateTime) :=
      match parse_custom_datetime s with
      | .ok dt => some (.inr dt)
      | .otherFail => some (.inl s)
      | .noDate =>
        match pyInt raw.date with
        | none => none
        | some n => (parse_unix_timestamp n).map .inr
    match step1 with
    | none => none
    | some dval =>
      let dval2? : Option (String ⊕ PyDateTime) :=
        match dval with
        | .inr cur => some (.inr (fix_broken_datetime raw.body cur))
        | .inl sd =>
          match first_embedded_date raw.body with
          | some _ => none
          | none => some (.inl sd)
      match dval2? with
      | none => none
      | some dval2 =>
        match d.card with
        | none => none
        | some c0 =>
          let c1 := c0.toList.filter (fun c => c ≠ '*' && c ≠ ' ')
          let c2 : String := ⟨if c1.length > 4 then c1.take 4 else c1⟩
          match d.amount with
          | none => none
          | some a0 =>
            match parse_ambiguous_decimal a0 with
            | none => none
            | some a =>
              match d.balance with
              | none => none
              | some b0 =>
                match parse_ambiguous_decimal b0 with
                | none => none
                | some b =>
                  match d.txn_type with
                  | none => none
                  | some ts =>
                    match txnTypeOfString ts with
                    | none => none
                    | some tt =>
                      let dtFinal? : Option PyDateTime :=
                        match dval2 with
                        | .inr dt => some dt
                        | .inl s2 => pydantic_datetime_of_string s2
                      match dtFinal? with
                      | none => none
                      | some dtF =>
                        if a.num < 0 then none
                        else
                          match d.currency, d.merchant, d.city, d.address with
                          | some cu, some me, some ci, some ad =>
                            some ⟨tt, dtF, a, cu, c2, me, ci, ad, b⟩
                          | _, _, _, _ => none

/-- The `if core.address == "null": core.address = ""` fix applied after a
successful validation. -/
def applyAddressFix (core : ParsedSmsCore) : ParsedSmsCore :=
  if core.address = "null" then { core with address := "" } else core

/-- The `ParsedSMS(...)` construction at the end of `parse_sms_llm`
(`raw_body` is the masked body, `currency` uppercased by the field
validator, decimals and card wrapped into the optional fields). -/
def buildParsed (raw : RawSMS) (fixedBody : String) (core : ParsedSmsCore) : ParsedSMS :=
  { msg_id := raw.msg_id
    device_id := raw.device_id
    sender := raw.sender
    date := core.date
    raw_body := fixedBody
    txn_type := core.txn_type
    amount := some core.amount
    currency := some (pyUpper core.currency)
    card := some core.card
    merchant := some core.merchant
    city := some core.city
    address := some core.address
    balance := some core.balance
    parser_version := "llm-0.2.0" }

/-- The tail of `parse_sms_llm` once a response dict is in hand: run the
`try:` block; on an exception the handler reads `resp_data["txn_type"]`
(raising `KeyError` if absent) and returns `None`; on success apply the
`address == "null"` fix, raise `BrokenMessage` when the cleaned card is
shorter than 4 characters, otherwise build the `ParsedSMS`. -/
def adapterFinish (raw : RawSMS) (fixedBody : String) (d : RespDict) : ParseResult :=
  match normalizeResp raw d with
  | none => if d.txn_type.isSome then .noneResult else .raised
  | some core =>
    if (applyAddressFix core).card.toList.length < 4 then .brokenMessage
    else .parsed (buildParsed raw fixedBody (applyAddressFix core))

/-- `libs/gemini_parser.parse_sms_llm`, abstracted over the content-hash
function (SHA-256 hex in the code) and the oracle behaviour for this call.
Returns the result handed to the caller, the cache after the call, and the
number of oracle invocations performed (0 or 1).  The cache is written
right after a successful oracle call, before normalization; a raising
oracle call writes nothing. -/
def parse_sms_llm (hash : String → String) (raw : RawSMS) (oracle : OracleResult)
    (cache : Cache) : ParseResult × Cache × Nat :=
  if otp_keywords_check raw.body then (.noneResult, cache, 0)
  else
    let fixedBody := fixedBodyOf raw.body
    let key := hash fixedBody
    match cache key with
    | some d => (adapterFinish raw fixedBody d, cache, 0)
    | none =>
      match oracle with
      | .response d =>
        (adapterFinish raw fixedBody d,
          fun k => if k = key then some d else cache k, 1)
      | _ => (.raised, cache, 1)

/- ─────────────── pipeline worker (parser_worker/worker.py) ─────────────── -/

/-- The inline OTP/non-transactional marker check of `_process_one`
(all case-insensitive via `.upper()` except the `Daily limit exceeded`
check, which the code performs on the raw body). -/
def worker_otp_check (body : String) : Bool :=
  let u := pyUpper body
  strContains u "OTP" || strContains u "CODE:" ||
  strContains u "NOT ENOUGH FUNDS" || strContains u "INSUFFICIENT FUNDS" ||
  strContains u "CREDIT PAYMENT" || strContains u "C2C RECEIVED" ||
  strContains u "PASS:" || strContains u "PASS=" ||
  strContains body "Daily limit exceeded" || strContains u "PERSON TO PERSON"

/-- Observable effects of `_process_one` on one message: whether it was
acknowledged, whether a dead-letter entry was published to `sms.failed`,
whether the record was published to `sms.parsed` (and which one), and how
many oracle calls were made. -/
structure WorkerOutcome where
  acked : Bool
  dlq : Bool
  published : Bool
  publishedRecord : Option ParsedSMS
  oracleCalls : Nat
deriving DecidableEq, Repr

/-- `services/parser_worker/worker._process_one` from the point where the
`RawSMS` has been deserialized: marker check, `parse_sms_llm` dispatch
(`BrokenMessage` ⇒ skip+ack; any other exception ⇒ dead-letter+ack;
`None` ⇒ dead-letter+ack), pydantic re-validation, future-date check,
publish. -/
def worker_process_one (hash : String → String) (raw : RawSMS)
    (oracle : OracleResult) (cache : Cache) (now : PyDateTime) :
    WorkerOutcome × Cache :=
  if worker_otp_check raw.body then
    (⟨true, false, false, none, 0⟩, cache)
  else
    let r := parse_sms_llm hash raw oracle cache
    let c := r.2.1
    let n := r.2.2
    match r.1 with
    | .brokenMessage => (⟨true, false, false, none, n⟩, c)
    | .raised => (⟨true, true, false, none, n⟩, c)
    | .noneResult => (⟨true, true, false, none, n⟩, c)
    | .parsed p =>
      if validateParsedSMS p then
        if now.ltB p.date then (⟨true, true, false, none, n⟩, c)
        else (⟨true, false, true, some p, n⟩, c)
      else (⟨true, true, false, none, n⟩, c)

/- ─────────────── concrete fixtures for witnesses and counterexamples ─────────────── -/

/-- Empty cache. -/
def cacheEmpty : Cache := fun _ => none

/-- A raw message without any OTP/non-transactional marker. -/
def rawFix : RawSMS :=
  { msg_id := "m1", sender := "BANK", body := "hello purchase"
    date := "1746000000", device_id := none }

/-- A well-formed oracle response for `rawFix`. -/
def respFix : RespDict :=
  { txn_type := some "debit", date := some "01.01.99 10:00"
    amount := some "52.00", currency := some "usd", card := some "1234"
    merchant := some "SHOP", city := some "CITY", address := some "ADDR"
    balance := some "10.00" }

/-- The record `parse_sms_llm` produces from `rawFix` and `respFix`. -/
def parsedFix : ParsedSMS :=
  { msg_id := "m1", device_id := none, sender := "BANK"
    date := ⟨1999, 1, 1, 10, 0, 0⟩, raw_body := "hello purchase"
    txn_type := .debit, amount := some 52, currency := some "USD"
    card := some "1234", merchant := some "SHOP", city := some "CITY"
    address := some "ADDR", balance := some 10, parser_version := "llm-0.2.0" }

/- ─────────────── SQL upsert (pb_writer/upsert.py, db/models.py) ─────────────── -/

/-- Non-key columns of `db.models.SmsData` as assembled by
`upsert.upsert_parsed_sms` (the parsed dict with `date` renamed to
`datetime` and `raw_body` renamed to `original_body`). -/
structure SqlFields where
  device_id : Option String
  sender : String
  datetime : PyDateTime
  original_body : String
  txn_type : TxnType
  amount : Option ℚ
  currency : Option String
  card : Option String
  merchant : Option String
  city : Option String
  address : Option String
  balance : Option ℚ
  parser_version : String
deriving DecidableEq, Repr

/-- The column values a `ParsedSMS` contributes. -/
def sqlFieldsOf (p : ParsedSMS) : SqlFields :=
  { device_id := p.device_id, sender := p.sender, datetime := p.date
    original_body := p.raw_body, txn_type := p.txn_type, amount := p.amount
    currency := p.currency, card := p.card, merchant := p.merchant
    city := p.city, address := p.address, balance := p.balance
    parser_version := p.parser_version }

/-- The `sms_data` table keyed by its unique `msg_id` column; each row also
carries its autoincrement `id`. -/
abbrev SqlStore := String → Option (Nat × SqlFields)

/-- `services/pb_writer/upsert.upsert_parsed_sms`: a single
`INSERT … ON CONFLICT (msg_id) DO UPDATE` whose `SET` clause assigns every
excluded column except `id` and `msg_id` — a full replace of the non-key
fields, atomically keyed on `msg_id`.  `freshId` is the autoincrement id a
plain insert would allocate. -/
def upsert_parsed_sms (s : SqlStore) (p : ParsedSMS) (freshId : Nat) : SqlStore :=
  fun k =>
    if k = p.msg_id then
      some (match s p.msg_id with
        | some r => r.1
        | none => freshId, sqlFieldsOf p)
    else s k

/- ─────────────── PocketBase writer (pb_writer/writer.py, pocketbase.py) ─────────────── -/

/-- The JSON record `pocketbase.upsert_parsed_sms` sends (decimal values
are transmitted as `str(Decimal)`; they are modelled by their numeric
value). -/
structure PbRecord where
  original_key : String
  original_body : String
  sender : String
  datetime : PyDateTime
  card : Option String
  amount : Option ℚ
  currency : Option String
  balance : Option ℚ
  merchant : Option String
  address : Option String
  city : Option String
  txn_type : TxnType
deriving DecidableEq, Repr

/-- The record built from a `ParsedSMS` (`original_key` is `msg_id`). -/
def pbRecordOf (p : ParsedSMS) : PbRecord :=
  { original_key := p.msg_id, original_body := p.raw_body, sender := p.sender
    datetime := p.date, card := p.card, amount := p.amount
    currency := p.currency, balance := p.balance, merchant := p.merchant
    address := p.address, city := p.city, txn_type := p.txn_type }

/-- The PocketBase collection keyed by the unique `original_key` field. -/
abbrev PbStore := String → Option (Nat × PbRecord)

/-- `PocketBaseClient.upsert` composed with
`pocketbase.upsert_parsed_sms`: search by `original_key = msg_id`, `PATCH`
the found record with the full field set (its PocketBase id preserved),
otherwise `POST` a new record. -/
def pocketbase_upsert (s : PbStore) (p : ParsedSMS) (freshId : Nat) : PbStore :=
  fun k =>
    if k = p.msg_id then
      some (match s p.msg_id with
        | some r => r.1
        | none => freshId, pbRecordOf p)
    else s k

/-- Python truthiness of the `Optional[str]` merchant field
(`if parsed.merchant:`). -/
def merchantTruthy : Option String → Bool
  | none => false
  | some s => s ≠ ""

/-- What the writer receives from `sms.parsed`: either a payload that fails
`json.loads`/`ParsedSMS.model_validate`, or a validated record. -/
inductive WriterMsg
  | invalid
  | valid (p : ParsedSMS)
deriving DecidableEq

/-- Observable effects of the writer's `_process_one`. -/
structure WriterOutcome where
  acked : Bool
  dlq : Bool
  wrote : Bool
deriving DecidableEq, Repr

/-- `services/pb_writer/writer._process_one`: validate; skip the store
write when `parsed.merchant` is falsy; raise (→ dead-letter + ack) on a
future date or when the retried upsert is exhausted (`storeOk = false`);
otherwise upsert and ack. -/
def writer_process_one (store : PbStore) (m : WriterMsg) (now : PyDateTime)
    (storeOk : Bool) (freshId : Nat) : PbStore × WriterOutcome :=
  match m with
  | .invalid => (store, ⟨true, true, false⟩)
  | .valid p =>
    if merchantTruthy p.merchant then
      if now.ltB p.date then (store, ⟨true, true, false⟩)
      else if storeOk then (pocketbase_upsert store p freshId, ⟨true, false, true⟩)
      else (store, ⟨true, true, false⟩)
    else (store, ⟨true, false, false⟩)

/- ─────────────── further fixtures ─────────────── -/

/-- A processing time later than `parsedFix.date`. -/
def lateNow : PyDateTime := ⟨2026, 1, 1, 0, 0, 0⟩

/-- A processing time earlier than `parsedFix.date`. -/
def pastNow : PyDateTime := ⟨1990, 1, 1, 0, 0, 0⟩

/-- A raw message carrying an OTP marker. -/
def rawOtp : RawSMS :=
  { msg_id := "m2", sender := "BANK", body := "Your OTP is 1234"
    date := "1746000000", device_id := none }

/-- The spec's own example body (embedding `10.06.2025 20:51`). -/
def bodySwap : String :=
  "DEBIT ACCOUNT 27,252.00 AMD 4083XXX7538, AMERIABANK 10.06.2025 20:51 BALANCE: 391,469.09 AMD"

/-- An oracle response whose card field cleans to the non-digit string
`ABCD`. -/
def respCardABCD : RespDict := { respFix with card := some "ABCD" }

/-- The record the pipeline publishes for `respCardABCD`. -/
def parsedCardABCD : ParsedSMS := { parsedFix with card := some "ABCD" }

/-- An oracle response whose card field cleans to fewer than 4 characters. -/
def respShortCard : RespDict := { respFix with card := some "12" }

/-- The response dict `parse_sms_llm` actually works on for this call: the
cached entry if the key is present, otherwise the oracle's reply. -/
def respUsed (hash : String → String) (raw : RawSMS) (oracle : OracleResult)
    (cache : Cache) : Option RespDict :=
  match cache (hash (fixedBodyOf raw.body)) with
  | some d => some d
  | none =>
    match oracle with
    | .response d => some d
    | _ => none

/-- The empty PocketBase collection. -/
def pbStoreEmpty : PbStore := fun _ => none

/-- `parsedFix` with no merchant. -/
def parsedNoMerchant : ParsedSMS := { parsedFix with merchant := none }

/- ─────────────── C1: idempotent full-replace upsert ─────────────── -/

/-- Upserting into a store that already holds exactly the row the record
maps to is a no-op (the `ON CONFLICT` update writes the same values and
keeps the row id). -/
theorem upsert_parsed_sms_fixpoint (s : SqlStore) (p : ParsedSMS) (j x : Nat)
    (h : s p.msg_id = some (x, sqlFieldsOf p)) :
    upsert_parsed_sms s p j = s := by
  funext k
  unfold upsert_parsed_sms
  by_cases hk : k = p.msg_id
  · subst hk
    simp [h]
  · rw [if_neg hk]

/-- Iterating the upsert over any further ids leaves a store already
holding the row unchanged. -/
theorem foldl_upsert_fixpoint (p : ParsedSMS) (x : Nat) :
    ∀ (ids : List Nat) (s : SqlStore), s p.msg_id = some (x, sqlFieldsOf p) →
      ids.foldl (fun st j => upsert_parsed_sms st p j) s = s := by
  intro ids
  induction ids with
  | nil => intro s _; rfl
  | cons j t ih =>
    intro s h
    have hs : upsert_parsed_sms s p j = s := upsert_parsed_sms_fixpoint s p j x h
    show t.foldl (fun st j => upsert_parsed_sms st p j) (upsert_parsed_sms s p j) = s
    rw [hs]
    exact ih s h

/-- C1: upserting an identical `ParsedTransaction` N ≥ 1 times (any list of
candidate fresh row ids `i :: rest`) produces exactly the final store of a
single upsert, and the stored row at key `msg_id` carries every non-key
field from the incoming record — a full replace keyed on `msg_id`, not a
merge. -/
theorem upsert_idempotent_and_full_replace (s : SqlStore) (p : ParsedSMS)
    (i : Nat) (rest : List Nat) :
    (i :: rest).foldl (fun st j => upsert_parsed_sms st p j) s
      = upsert_parsed_sms s p i
    ∧ ∃ rowId, upsert_parsed_sms s p i p.msg_id = some (rowId, sqlFieldsOf p) := by
  have hrow : upsert_parsed_sms s p i p.msg_id
      = some (match s p.msg_id with | some r => r.1 | none => i, sqlFieldsOf p) := by
    unfold upsert_parsed_sms
    rw [if_pos rfl]
  refine ⟨?_, ⟨_, hrow⟩⟩
  show rest.foldl (fun st j => upsert_parsed_sms st p j) (upsert_parsed_sms s p i)
    = upsert_parsed_sms s p i
  exact foldl_upsert_fixpoint p _ rest _ hrow

/- ─────────────── C2: transport failures are in fact dead-lettered ─────────────── -/

/-- C2 counterexample: on a cache miss with the oracle unreachable
(`call_gemini` raises a transport error), `_process_one` publishes a
dead-letter entry AND acknowledges the message — the generic
`except Exception` branch makes no retryable/permanent distinction, so the
claimed behaviour (never dead-letter, never ack, rely on redelivery) fails
at this concrete input. -/
theorem transport_error_dlq_counterexample :
    (worker_process_one id rawFix .transportError cacheEmpty lateNow).1
      = ⟨true, true, false, none, 1⟩ := by
  decide

/-- C2 (amended): a transport/infrastructure extraction failure is handled
like every other extraction exception — the worker publishes a dead-letter
entry and acknowledges the message, never leaving it unacknowledged for
redelivery. -/
theorem transport_error_dead_lettered (hash : String → String) (raw : RawSMS)
    (cache : Cache) (now : PyDateTime)
    (hotp : worker_otp_check raw.body = false)
    (hmiss : cache (hash (fixedBodyOf raw.body)) = none) :
    (worker_process_one hash raw .transportError cache now).1.acked = true
    ∧ (worker_process_one hash raw .transportError cache now).1.dlq = true
    ∧ (worker_process_one hash raw .transportError cache now).1.published = false := by
  unfold worker_process_one parse_sms_llm
  rw [hotp]
  by_cases hkw : otp_keywords_check raw.body
  · simp [hkw]
  · simp [hkw, hmiss]

theorem transport_error_dead_lettered_witness :
    worker_otp_check rawFix.body = false
    ∧ cacheEmpty (id (fixedBodyOf rawFix.body)) = none
    ∧ ((worker_process_one id rawFix .transportError cacheEmpty lateNow).1.acked = true
      ∧ (worker_process_one id rawFix .transportError cacheEmpty lateNow).1.dlq = true
      ∧ (worker_process_one id rawFix .transportError cacheEmpty lateNow).1.published = false) :=
  ⟨by decide, rfl, transport_error_dead_lettered id rawFix cacheEmpty lateNow (by decide) rfl⟩

/- ─────────────── C3: future-dated records are dead-lettered ─────────────── -/

/-- C3: whenever extraction succeeds with a record whose `occurred_at`
(`parsed.date`) is strictly later than the processing time
(`parsed.date > datetime.now()`), the worker publishes a dead-letter
entry, acknowledges the message, and does not publish the record to the
parsed-output subject. -/
theorem future_date_dead_lettered (hash : String → String) (raw : RawSMS)
    (oracle : OracleResult) (cache : Cache) (now : PyDateTime) (p : ParsedSMS)
    (hotp : worker_otp_check raw.body = false)
    (hp : (parse_sms_llm hash raw oracle cache).1 = .parsed p)
    (hfuture : now.ltB p.date = true) :
    (worker_process_one hash raw oracle cache now).1.dlq = true
    ∧ (worker_process_one hash raw oracle cache now).1.acked = true
    ∧ (worker_process_one hash raw oracle cache now).1.published = false
    ∧ (worker_process_one hash raw oracle cache now).1.publishedRecord = none := by
  unfold worker_process_one
  rw [hotp]
  by_cases hv : validateParsedSMS p
  · simp [hp, hv, hfuture]
  · simp [hp, hv]

theorem future_date_dead_lettered_witness :
    worker_otp_check rawFix.body = false
    ∧ (parse_sms_llm id rawFix (.response respFix) cacheEmpty).1 = .parsed parsedFix
    ∧ PyDateTime.ltB pastNow parsedFix.date = true
    ∧ ((worker_process_one id rawFix (.response respFix) cacheEmpty pastNow).1.dlq = true
      ∧ (worker_process_one id rawFix (.response respFix) cacheEmpty pastNow).1.acked = true
      ∧ (worker_process_one id rawFix (.response respFix) cacheEmpty pastNow).1.published = false
      ∧ (worker_process_one id rawFix (.response respFix) cacheEmpty pastNow).1.publishedRecord = none) :=
  ⟨by decide, by decide, by decide,
    future_date_dead_lettered id rawFix (.response respFix) cacheEmpty pastNow parsedFix
      (by decide) (by decide) (by decide)⟩

/- ─────────────── C4: the content-hash cache bypasses the oracle ─────────────── -/

/-- C4: after any run whose oracle call returned a response (so the
response was cached before normalization), processing the identical body
again performs zero oracle calls, leaves the cache unchanged, and — for
any oracle behaviour whatsoever on the second run — produces exactly the
same extraction result from the cached response. -/
theorem cache_hit_bypasses_oracle (hash : String → String) (raw : RawSMS)
    (d : RespDict) (cache : Cache) (oracle2 : OracleResult) :
    parse_sms_llm hash raw oracle2 (parse_sms_llm hash raw (.response d) cache).2.1
      = ((parse_sms_llm hash raw (.response d) cache).1,
         (parse_sms_llm hash raw (.response d) cache).2.1, 0) := by
  unfold parse_sms_llm
  by_cases hotp : otp_keywords_check raw.body
  · simp [hotp]
  · cases hc : cache (hash (fixedBodyOf raw.body)) with
    | some d2 => simp [hotp, hc]
    | none => simp [hotp, hc]

/- ─────────────── C5: OTP markers short-circuit before extraction ─────────────── -/

/-- C5: a message whose body contains one of the worker's marker
substrings is acknowledged before any extraction: zero oracle calls, no
dead-letter entry, nothing published, cache untouched (it is counted via
`PARSED_OK`, i.e. handled, not failed). -/
theorem otp_marker_skipped (hash : String → String) (raw : RawSMS)
    (oracle : OracleResult) (cache : Cache) (now : PyDateTime)
    (h : worker_otp_check raw.body = true) :
    worker_process_one hash raw oracle cache now
      = (⟨true, false, false, none, 0⟩, cache) := by
  unfold worker_process_one
  rw [h]
  simp

theorem otp_marker_skipped_witness :
    worker_otp_check rawOtp.body = true
    ∧ worker_process_one id rawOtp .transportError cacheEmpty lateNow
        = (⟨true, false, false, none, 0⟩, cacheEmpty) :=
  ⟨by decide, otp_marker_skipped id rawOtp .transportError cacheEmpty lateNow (by decide)⟩

/- ─────────────── C6: parse_amount on the three spec inputs ─────────────── -/

/-- C6 counterexample: on `"1,000"` the code takes the single comma as the
decimal separator (as the spec's own rule in §4.1 prescribes) and returns
the value 1 (`Decimal("1.000")`), not 1000. -/
theorem parse_amount_single_comma_counterexample :
    parse_ambiguous_decimal "1,000" ≠ some (1000 : ℚ) := by
  decide

/-- C6 (amended): `parse_amount` returns exactly 79825.89 for both
`"79,825.89"` and `"79.825,89"` (with both separators present the later
one is decimal), and exactly 1 for `"1,000"` (a single comma is the
decimal separator, so the string parses as 1.000). -/
theorem parse_amount_values :
    parse_ambiguous_decimal "79,825.89" = some (mkRat 7982589 100)
    ∧ parse_ambiguous_decimal "79.825,89" = some (mkRat 7982589 100)
    ∧ parse_ambiguous_decimal "1,000" = some (1 : ℚ) := by
  decide

/- ─────────────── C7: embedded-date repair ─────────────── -/

/-- C7: whenever the raw body embeds a `dd.mm.yyyy` / `dd.mm.yy` token that
parses to a valid date (the first regex match, in the code's pattern
order), `fix_broken_datetime` returns that date combined with the
time-of-day of the initially parsed datetime — the date component is
replaced, the time preserved.  (When the embedded date equals the parsed
one the code returns `current_date`, which coincides with the same
combination, so the equation needs no distinctness hypothesis.) -/
theorem embedded_date_replaces_date (body : String) (cur : PyDateTime)
    (dte : PyDate) (h : first_embedded_date body = some dte) :
    fix_broken_datetime body cur = combineDate dte cur := by
  unfold fix_broken_datetime
  rw [h]

theorem embedded_date_replaces_date_witness :
    parse_custom_datetime "06/10/25 20:51" = .ok ⟨2025, 6, 10, 20, 51, 0⟩
    ∧ first_embedded_date bodySwap = some ⟨2025, 6, 10⟩
    ∧ fix_broken_datetime bodySwap ⟨2025, 6, 10, 20, 51, 0⟩ = ⟨2025, 6, 10, 20, 51, 0⟩ :=
  ⟨by decide, by decide,
    embedded_date_replaces_date bodySwap ⟨2025, 6, 10, 20, 51, 0⟩ ⟨2025, 6, 10⟩ (by decide)⟩

/- ─────────────── C8: invariants of published records ─────────────── -/

/-- Every `ParsedSMS` the adapter hands back carries an amount: the
extraction path parses `resp_data["amount"]` unconditionally before
validation, for every transaction type. -/
theorem adapter_parsed_has_amount (raw : RawSMS) (fb : String) (d : RespDict)
    (q : ParsedSMS) (h : adapterFinish raw fb d = .parsed q) :
    q.amount.isSome = true := by
  unfold adapterFinish at h
  split at h
  · split at h <;> exact absurd h (by simp)
  · split at h
    · exact absurd h (by simp)
    · injection h with h2
      rw [← h2]
      rfl

/-- Lifting `adapter_parsed_has_amount` through the cache dispatch of
`parse_sms_llm`. -/
theorem parse_result_has_amount (hash : String → String) (raw : RawSMS)
    (oracle : OracleResult) (cache : Cache) (q : ParsedSMS)
    (h : (parse_sms_llm hash raw oracle cache).1 = .parsed q) :
    q.amount.isSome = true := by
  unfold parse_sms_llm at h
  by_cases hotp : otp_keywords_check raw.body
  · simp [hotp] at h
  · simp only [if_neg hotp] at h
    cases hc : cache (hash (fixedBodyOf raw.body)) with
    | some d =>
      rw [hc] at h
      exact adapter_parsed_has_amount _ _ _ _ h
    | none =>
      rw [hc] at h
      cases oracle with
      | response d => exact adapter_parsed_has_amount _ _ _ _ h
      | transportError => simp at h
      | malformedAnswer => simp at h

/-- C8 (amended): every record the worker accepts for publication has an
amount present (for every transaction type, in particular DEBIT/CREDIT)
and its card field, when present, is exactly 4 characters long — the
pipeline checks the length, not that the characters are digits. -/
theorem published_record_invariants (hash : String → String) (raw : RawSMS)
    (oracle : OracleResult) (cache : Cache) (now : PyDateTime) (p : ParsedSMS)
    (h : (worker_process_one hash raw oracle cache now).1.publishedRecord = some p) :
    (∀ c, p.card = some c → c.toList.length = 4) ∧ p.amount.isSome = true := by
  unfold worker_process_one at h
  by_cases hotp : worker_otp_check raw.body
  · simp [hotp] at h
  · simp only [if_neg hotp] at h
    cases hr : (parse_sms_llm hash raw oracle cache).1 with
    | parsed q =>
      simp only [hr] at h
      by_cases hv : validateParsedSMS q
      · by_cases hlt : now.ltB q.date
        · simp [hv, hlt] at h
        · simp [hv, hlt] at h
          subst h
          refine ⟨?_, parse_result_has_amount hash raw oracle cache q hr⟩
          intro c hc
          unfold validateParsedSMS at hv
          rw [hc] at hv
          exact of_decide_eq_true hv
      · simp [hv] at h
    | noneResult => simp only [hr] at h; simp at h
    | brokenMessage => simp only [hr] at h; simp at h
    | raised => simp only [hr] at h; simp at h

/-- C8 counterexample: the pipeline publishes a record whose card field is
`"ABCD"` — length 4, but not 4 digits — so "card_last4 consists of exactly
4 digits" fails at this concrete input. -/
theorem published_card_not_digits :
    (worker_process_one id rawFix (.response respCardABCD) cacheEmpty lateNow).1.published = true
    ∧ (worker_process_one id rawFix (.response respCardABCD) cacheEmpty lateNow).1.publishedRecord
        = some parsedCardABCD
    ∧ parsedCardABCD.card = some "ABCD"
    ∧ ("ABCD".toList.all Char.isDigit) = false := by
  decide

theorem published_record_invariants_witness :
    (worker_process_one id rawFix (.response respCardABCD) cacheEmpty lateNow).1.publishedRecord
      = some parsedCardABCD
    ∧ ((∀ c, parsedCardABCD.card = some c → c.toList.length = 4)
      ∧ parsedCardABCD.amount.isSome = true) :=
  ⟨by decide,
    published_record_invariants id rawFix (.response respCardABCD) cacheEmpty lateNow
      parsedCardABCD (by decide)⟩

/- ─────────────── C9: the adapter can raise to its caller ─────────────── -/

/-- C9 counterexample: a response whose card field is the short string
`"12"` — an expected-shape mismatch — makes `parse_sms_llm` raise
`BrokenMessage` to its caller instead of returning a typed result (the
worker catches it at its own level and skips the message). -/
theorem short_card_raises_broken_message :
    (parse_sms_llm id rawFix (.response respShortCard) cacheEmpty).1 = .brokenMessage := by
  decide

/-- With `txn_type` present, the post-response path never lets an
exception escape: every normalization/validation failure is caught and
becomes `None`; the only raise left is the explicit `BrokenMessage`. -/
theorem adapter_finish_not_raised (raw : RawSMS) (fb : String) (d : RespDict)
    (h : d.txn_type.isSome = true) :
    adapterFinish raw fb d ≠ .raised := by
  unfold adapterFinish
  split
  · rw [h]
    simp
  · split <;> simp

/-- C9 (amended): whenever the response dict in play (cache hit or oracle
reply) is a JSON object containing `txn_type`, the adapter never
propagates an arbitrary exception for expected-shape mismatches — the
caller receives the parsed record, the typed `None` result, or the
explicit `BrokenMessage` of the short-card check; an oracle-level failure
or a response missing `txn_type` can still raise. -/
theorem adapter_typed_result (hash : String → String) (raw : RawSMS)
    (oracle : OracleResult) (cache : Cache) (d : RespDict)
    (h1 : respUsed hash raw oracle cache = some d)
    (h2 : d.txn_type.isSome = true) :
    (parse_sms_llm hash raw oracle cache).1 ≠ .raised := by
  unfold parse_sms_llm
  unfold respUsed at h1
  by_cases hotp : otp_keywords_check raw.body
  · simp [hotp]
  · simp only [if_neg hotp]
    cases hc : cache (hash (fixedBodyOf raw.body)) with
    | some d0 =>
      rw [hc] at h1
      simp at h1
      subst h1
      exact adapter_finish_not_raised _ _ _ h2
    | none =>
      rw [hc] at h1
      cases oracle with
      | response d0 =>
        simp at h1
        subst h1
        exact adapter_finish_not_raised _ _ _ h2
      | transportError => simp at h1
      | malformedAnswer => simp at h1

theorem adapter_typed_result_witness :
    respUsed id rawFix (.response respFix) cacheEmpty = some respFix
    ∧ respFix.txn_type.isSome = true
    ∧ (parse_sms_llm id rawFix (.response respFix) cacheEmpty).1 ≠ .raised :=
  ⟨by decide, by decide,
    adapter_typed_result id rawFix (.response respFix) cacheEmpty respFix
      (by decide) (by decide)⟩

/- ─────────────── C10: the writer skips merchant-less records ─────────────── -/

/-- C10: a validated record whose merchant is absent or empty is
acknowledged with no store write at all — the store is left entirely
unchanged and no dead-letter entry is produced; only truthy-merchant
records reach the upsert. -/
theorem writer_skips_empty_merchant (store : PbStore) (p : ParsedSMS)
    (now : PyDateTime) (storeOk : Bool) (freshId : Nat)
    (h : merchantTruthy p.merchant = false) :
    writer_process_one store (.valid p) now storeOk freshId
      = (store, ⟨true, false, false⟩) := by
  show (if merchantTruthy p.merchant = true then _ else _) = _
  rw [h]
  simp

theorem writer_skips_empty_merchant_witness :
    merchantTruthy parsedNoMerchant.merchant = false
    ∧ writer_process_one pbStoreEmpty (.valid parsedNoMerchant) lateNow true 7
        = (pbStoreEmpty, ⟨true, false, false⟩) :=
  ⟨by decide,
    writer_skips_empty_merchant pbStoreEmpty parsedNoMerchant lateNow true 7 (by decide)⟩
